import Mathlib

/-!
# Verification of the Data_crawler polite crawl engine

Shallow embedding of the three crawler scripts of the `Data_crawler`
repository:

* `Layout_extracter &Security_cheecker for web/polite_crawler_enhanced.py`
  (`CrawlerStats`, `PoliteCrawler`),
* `Layout_extracter &Security_cheecker for web/security_crawler_enhanced.py`
  (`SecurityCrawler`),
* `crawler_app.py` (`IndustrialCrawler`).

External effects (network, disk, HTML parsing) are abstracted into explicit
environment parameters; all control flow, state updates and error handling of
the Python source are translated statement by statement.  Behaviour of the
Python standard library that the scripts rely on (`urllib.robotparser`,
`os.path`, `requests.Response.raise_for_status`) is embedded from the
CPython / requests sources where a claim depends on it.
-/

namespace DataCrawler

/-! ## Configuration constants (polite_crawler_enhanced.py lines 15-18) -/

def MAX_PAGES_TO_CRAWL : Nat := 10

def MAX_RETRIES : Nat := 3

def TIMEOUT : Nat := 10

/-! ## urllib.robotparser.RobotFileParser (CPython standard library)

`PoliteCrawler` delegates every permission check to a stdlib
`RobotFileParser`.  The fields and the `read` / `can_fetch` control flow are
embedded from CPython `Lib/urllib/robotparser.py`:

* `read` fetches `robots.txt`; an `HTTPError` is caught inside `read`
  (401/403 set `disallow_all`, other 4xx set `allow_all`, 5xx change
  nothing); any other exception (connection error, body decode error)
  escapes `read`.  On a successful fetch `parse` is run, which stamps
  `last_checked` (via `modified()`) and stores the ruleset.
* `can_fetch` returns `False` if `disallow_all`, `True` if `allow_all`,
  `False` if `last_checked` was never stamped, and otherwise consults the
  parsed ruleset.  It never raises.

The parsed ruleset is abstracted as a function from URL to the allow
decision for the crawler's fixed user agent. -/

structure RobotFileParser where
  disallow_all : Bool
  allow_all : Bool
  /-- `0` means `modified()` has never run, i.e. robots.txt was never
  successfully read and parsed. -/
  last_checked : Nat
  /-- Allow decision of the parsed ruleset for the crawler's user agent. -/
  rules : String → Bool

/-- State of a freshly constructed `RobotFileParser()`
(polite_crawler_enhanced.py line 88). -/
def RobotFileParser.init : RobotFileParser :=
  { disallow_all := false, allow_all := false, last_checked := 0,
    rules := fun _ => true }

/-- Outcome of the GET of `{base_url}/robots.txt` issued by
`RobotFileParser.read`. -/
inductive RobotsFetch where
  /-- 200 response whose body decodes and parses; `rules` is the resulting
  ruleset decision function. -/
  | success (rules : String → Bool)
  /-- `urlopen` raised `HTTPError` with this status code. -/
  | httpError (code : Nat)
  /-- `urlopen` raised a non-HTTP `URLError` (unreachable host, DNS failure,
  timeout). -/
  | connError
  /-- The body was fetched but `raw.decode("utf-8")` raised. -/
  | decodeError

/-- CPython `RobotFileParser.read`.  Returns `Except.error ()` when the
exception escapes `read` itself. -/
def RobotFileParser.read (p : RobotFileParser) :
    RobotsFetch → Except Unit RobotFileParser
  | .success rules => .ok { p with last_checked := 1, rules := rules }
  | .httpError code =>
      if code = 401 ∨ code = 403 then .ok { p with disallow_all := true }
      else if 400 ≤ code ∧ code < 500 then .ok { p with allow_all := true }
      else .ok p
  | .connError => .error ()
  | .decodeError => .error ()

/-- `PoliteCrawler.check_robots_txt` (lines 105-113): calls
`self.robots_parser.read()` inside `try ... except Exception`, so an escaped
exception is swallowed and the parser state is left as it was. -/
def check_robots_txt (p : RobotFileParser) (outcome : RobotsFetch) :
    RobotFileParser :=
  match p.read outcome with
  | .ok p' => p'
  | .error _ => p

/-- CPython `RobotFileParser.can_fetch` (total, never raises). -/
def RobotFileParser.can_fetch (p : RobotFileParser) (url : String) : Bool :=
  if p.disallow_all then false
  else if p.allow_all then true
  else if p.last_checked = 0 then false
  else p.rules url

/-- `PoliteCrawler.can_fetch` (lines 115-120): wraps the stdlib call in
`try ... except: return True`.  The wrapped call is total, so the `except`
branch (the fail-open default) is unreachable and the crawler returns
exactly the stdlib decision. -/
def PoliteCrawler.can_fetch (p : RobotFileParser) (url : String) : Bool :=
  p.can_fetch url

/-! ## Fetcher: `PoliteCrawler.download_with_retry` (lines 122-134)

One HTTP attempt is abstracted as its observable outcome: either a
transport-level `RequestException`, or a final response (after requests'
internal redirect handling) carrying a status code.
`Response.raise_for_status` raises `HTTPError` exactly for status codes in
400-599 (4xx client errors and 5xx server errors); any other status,
including non-2xx codes such as 304, is returned to the caller as a
success. -/

inductive AttemptOutcome where
  /-- `session.get` raised a `RequestException`. -/
  | transportError
  /-- `session.get` returned a response with this status code. -/
  | response (status : Nat)

/-- Status of an outcome; only consulted on the non-raising path. -/
def AttemptOutcome.statusOf : AttemptOutcome → Nat
  | .transportError => 0
  | .response s => s

/-- Does this attempt end in a `RequestException`?  A transport error raises
directly; a response raises through `raise_for_status` iff its status code
is in 400-599. -/
def AttemptOutcome.fails : AttemptOutcome → Bool
  | .transportError => true
  | .response s => decide (400 ≤ s ∧ s < 600)

/-- Observable result of one `download_with_retry` call: the returned
response status (`none` models Python's `None`), the error records appended
to `stats.errors` (one URL per record), and the side-effect counters: GET
attempts issued, one-second inter-attempt sleeps performed, and the timeout
passed to each GET. -/
structure RetryResult where
  response : Option Nat
  errors : List String
  gets : Nat
  sleeps : Nat
  timeouts : List Nat
  deriving DecidableEq, Repr

/-- The `for attempt in range(MAX_RETRIES)` loop body, over the remaining
attempt outcomes (a singleton list is the last attempt, `attempt ==
MAX_RETRIES - 1`). -/
def runAttempts (url : String) : List AttemptOutcome → RetryResult
  | [] => { response := none, errors := [], gets := 0, sleeps := 0,
            timeouts := [] }
  | [o] =>
      if o.fails then
        { response := none, errors := [url], gets := 1, sleeps := 0,
          timeouts := [TIMEOUT] }
      else
        { response := some o.statusOf, errors := [], gets := 1, sleeps := 0,
          timeouts := [TIMEOUT] }
  | o :: o' :: rest =>
      if o.fails then
        let r := runAttempts url (o' :: rest)
        { response := r.response, errors := r.errors, gets := r.gets + 1,
          sleeps := r.sleeps + 1, timeouts := TIMEOUT :: r.timeouts }
      else
        { response := some o.statusOf, errors := [], gets := 1, sleeps := 0,
          timeouts := [TIMEOUT] }

/-- `PoliteCrawler.download_with_retry` (lines 122-134): up to
`MAX_RETRIES = 3` attempts, `time.sleep(1)` between consecutive attempts,
`timeout=TIMEOUT` on every `session.get`; on the last failed attempt it
appends one `{url, error}` record and returns `None`; a `RequestException`
never escapes. -/
def download_with_retry (env : Nat → AttemptOutcome) (url : String) :
    RetryResult :=
  runAttempts url [env 0, env 1, env 2]

/-! ## StatsCollector: `CrawlerStats` (lines 33-58) -/

/-- Python `round(x, 2)` on the exact rational value: scale by 100, round to
the nearest integer with ties going to the even integer, scale back. -/
def roundHalfEvenInt (q : ℚ) : ℤ :=
  let f := ⌊q⌋
  if q - f < 1 / 2 then f
  else if 1 / 2 < q - f then f + 1
  else if f % 2 = 0 then f else f + 1

def pyRound2 (q : ℚ) : ℚ :=
  (roundHalfEvenInt (q * 100) : ℚ) / 100

/-- `CrawlerStats.__init__` fields.  Timestamps are seconds as exact
rationals; `none` models Python `None`. -/
structure CrawlerStats where
  pages_crawled : Nat
  assets_downloaded : Nat
  total_bytes : Nat
  start_time : Option ℚ
  end_time : Option ℚ
  /-- One entry per recorded error (the `url` field of the record). -/
  errors : List String
  urls_found : Nat

/-- The dictionary produced by `CrawlerStats.to_dict`. -/
structure StatsDict where
  pages_crawled : Nat
  assets_downloaded : Nat
  total_bytes : Nat
  total_mb : ℚ
  duration_seconds : ℚ
  urls_found : Nat
  errors_count : Nat
  errors : List String

/-- `CrawlerStats.to_dict` (lines 44-58). -/
def CrawlerStats.to_dict (s : CrawlerStats) : StatsDict :=
  let duration : ℚ :=
    match s.start_time, s.end_time with
    | some a, some b => b - a
    | _, _ => 0
  { pages_crawled := s.pages_crawled
    assets_downloaded := s.assets_downloaded
    total_bytes := s.total_bytes
    total_mb := pyRound2 ((s.total_bytes : ℚ) / (1024 * 1024))
    duration_seconds := pyRound2 duration
    urls_found := s.urls_found
    errors_count := s.errors.length
    errors := s.errors.take 10 }

/-! ## Path helpers (`urllib.parse.urlparse(...).path`, `os.path`)

Only the behaviour used by `download_asset` is embedded: the path component
of an absolute `http(s)` URL, POSIX basename, and two-argument
`os.path.join` with a relative second component. -/

/-- Python `str.split(sep)` for a one-character separator, on the character
list of a string (`"a/b/".split("/") == ["a", "b", ""]`, `"".split("/") ==
[""]`). -/
def splitOnChar (c : Char) : List Char → List (List Char)
  | [] => [[]]
  | x :: xs =>
      let r := splitOnChar c xs
      if x = c then [] :: r
      else
        match r with
        | [] => [[x]]
        | y :: ys => (x :: y) :: ys

/-- Split a character list at the first occurrence of `pat`:
`some (before, after)`, or `none` when `pat` does not occur. -/
def splitFirst (pat : List Char) : List Char → Option (List Char × List Char)
  | [] => if pat = [] then some ([], []) else none
  | x :: xs =>
      if pat.isPrefixOf (x :: xs) then some ([], (x :: xs).drop pat.length)
      else
        match splitFirst pat xs with
        | none => none
        | some (a, b) => some (x :: a, b)

/-- Path component of `urlparse(url)`: for a URL containing `://`, the part
after the authority (from the first `/` after the host) up to the first `?`
or `#`; for an input with no `://`, the input itself up to the first `?` or
`#`. -/
def urlparse_path (url : String) : String :=
  match splitFirst "://".data url.data with
  | none =>
      let beforeQuery := (splitOnChar '?' url.data).headD url.data
      String.mk ((splitOnChar '#' beforeQuery).headD beforeQuery)
  | some (_, afterScheme) =>
      let beforeQuery := (splitOnChar '?' afterScheme).headD afterScheme
      let beforeFrag := (splitOnChar '#' beforeQuery).headD beforeQuery
      match splitOnChar '/' beforeFrag with
      | [] => ""
      | _host :: segs =>
          if segs.isEmpty then ""
          else String.mk ('/' :: List.intercalate ['/'] segs)

/-- `os.path.basename` for slash-separated paths: the part after the last
`/` (empty when the path ends in `/`). -/
def os_path_basename (p : String) : String :=
  String.mk ((splitOnChar '/' p.data).getLastD [])

/-- `os.path.join(folder, name)` with a relative `name`. -/
def os_path_join (folder name : String) : String :=
  if folder = "" then name else folder ++ "/" ++ name

/-! ## Asset archiver: `PoliteCrawler.download_asset` (lines 136-168) -/

/-- Environment for one `download_asset` call: what the network and the
disk would do if reached. -/
structure AssetEnv where
  /-- `none`: `download_with_retry` returns `None` after all retries (it has
  itself appended the error record); `some chunks`: a response whose body
  streams in chunks of these sizes. -/
  fetch : Option (List Nat)
  /-- Does `open(filepath, "wb")` succeed?  `false` models an `OSError`
  raised at open time, before any byte is written. -/
  writeOk : Bool

/-- The crawler state touched by `download_asset`: the set of file paths
present on disk and the statistics fields it mutates.  `requests` is an
observability counter of `download_with_retry` invocations (network use). -/
structure AssetState where
  files : List String
  assets_downloaded : Nat
  total_bytes : Nat
  errors : List String
  requests : Nat
  deriving DecidableEq, Repr

/-- `PoliteCrawler.download_asset` (lines 136-168).  The whole body runs
inside `try ... except Exception`, whose handler appends an error record and
returns `None`; so the function is total.  Steps, in source order:
`filename = basename(urlparse(url).path)`; early `return None` when the
basename is empty; strip a query suffix; `filepath = os.path.join(folder,
filename)`; if the file already exists return the filename untouched; else
fetch with retry (`None` means the retry loop already recorded the error);
else write the body chunk by chunk and bump
`stats.assets_downloaded` / `stats.total_bytes`. -/
def download_asset (env : AssetEnv) (s : AssetState) (url folder : String) :
    Option String × AssetState :=
  let filename := os_path_basename (urlparse_path url)
  if filename = "" then (none, s)
  else
    let filename :=
      String.mk ((splitOnChar '?' filename.data).headD filename.data)
    let filepath := os_path_join folder filename
    if filepath ∈ s.files then (some filename, s)
    else
      match env.fetch with
      | none =>
          (none, { s with errors := s.errors ++ [url],
                          requests := s.requests + 1 })
      | some chunks =>
          if env.writeOk then
            (some filename,
             { s with files := s.files ++ [filepath],
                      assets_downloaded := s.assets_downloaded + 1,
                      total_bytes := s.total_bytes + chunks.sum,
                      requests := s.requests + 1 })
          else
            (none, { s with errors := s.errors ++ [url],
                            requests := s.requests + 1 })

/-! ## Security auditor: `SecurityCrawler.check_security_headers`
(security_crawler_enhanced.py lines 162-236)

Response headers are modelled as the list of header names present in the
response (requests' header lookup is case-insensitive; names here are the
canonical spellings the source tests for).  The function returns, in source
order, the severity-bucketed findings it appends to
`self.security_issues`. -/

inductive Severity where
  | critical | high | medium | low | info
  deriving DecidableEq, Repr

structure Finding where
  ftype : String
  details : String
  location : String
  recommendation : String
  deriving DecidableEq, Repr

/-- `SecurityCrawler.check_security_headers`: the seven independent header
checks, each appending one finding when its condition holds. -/
def check_security_headers (headers : List String) (url : String) :
    List (Severity × Finding) :=
  (if "Strict-Transport-Security" ∉ headers then
    [(Severity.high,
      { ftype := "Missing HSTS Header",
        details := "HSTS header not set - vulnerable to SSL stripping attacks",
        location := url,
        recommendation := "Add header: Strict-Transport-Security: max-age=31536000; includeSubDomains" })]
   else []) ++
  (if "X-Frame-Options" ∉ headers ∧ "Content-Security-Policy" ∉ headers then
    [(Severity.medium,
      { ftype := "Missing Clickjacking Protection",
        details := "Neither X-Frame-Options nor CSP frame-ancestors set",
        location := url,
        recommendation := "Add header: X-Frame-Options: SAMEORIGIN or use CSP" })]
   else []) ++
  (if "X-Content-Type-Options" ∉ headers then
    [(Severity.medium,
      { ftype := "Missing X-Content-Type-Options",
        details := "MIME-sniffing attacks possible",
        location := url,
        recommendation := "Add header: X-Content-Type-Options: nosniff" })]
   else []) ++
  (if "Content-Security-Policy" ∉ headers then
    [(Severity.medium,
      { ftype := "Missing Content Security Policy",
        details := "No CSP header - vulnerable to XSS attacks",
        location := url,
        recommendation := "Implement a strict Content-Security-Policy" })]
   else []) ++
  (if "X-XSS-Protection" ∉ headers then
    [(Severity.low,
      { ftype := "Missing X-XSS-Protection",
        details := "Legacy XSS protection header not set",
        location := url,
        recommendation := "Add header: X-XSS-Protection: 1; mode=block" })]
   else []) ++
  (if "Referrer-Policy" ∉ headers then
    [(Severity.low,
      { ftype := "Missing Referrer-Policy",
        details := "No referrer policy set - may leak sensitive URLs",
        location := url,
        recommendation := "Add header: Referrer-Policy: strict-origin-when-cross-origin" })]
   else []) ++
  (if "Permissions-Policy" ∉ headers ∧ "Feature-Policy" ∉ headers then
    [(Severity.info,
      { ftype := "Missing Permissions-Policy",
        details := "No permissions policy defined",
        location := url,
        recommendation := "Consider adding Permissions-Policy header" })]
   else [])

/-! ## CrawlEngine: `PoliteCrawler.crawl` and `PoliteCrawler.process_page`
(lines 208-344)

The per-URL interaction with the network / parser / disk is abstracted into
a `PageEnv`; every statement of the control loop (queue and visited-set
updates, counters, error records, exception propagation) is translated
directly.  Python exceptions are modelled with `Except`: `process_page`'s
`try` block (lines 216-226) covers only the fetch and the BeautifulSoup
parse; the page save (lines 234-236) and the inline-SVG save (lines
279-283) run outside it, and `crawl` (lines 305-344) installs no handler at
all, so an exception raised there aborts the whole run. -/

inductive PyErr where
  | keyError (key : String)
  | osError
  deriving DecidableEq, Repr

/-- `PoliteCrawler.setup_folders` (lines 92-103): the `self.folders`
dictionary.  Note the keys: there is a key `"svgs"` but no key `"svg"`. -/
def setup_folders (domain : String) : List (String × String) :=
  [("root", domain),
   ("html", os_path_join domain "pages"),
   ("images", os_path_join (os_path_join domain "assets") "images"),
   ("svgs", os_path_join (os_path_join domain "assets") "svgs"),
   ("data", os_path_join domain "data")]

/-- What the outside world does for one URL processed by
`PoliteCrawler.process_page`.  `anchors` is the list of cleaned candidate
link targets in document order: the result of `urljoin` + same-domain +
non-`mailto` filtering + fragment stripping (lines 291-298), *before* the
visited-set check of line 299.  The image loop (lines 246-253) is served by
`download_asset`, which catches all its own exceptions, so it is not a
source of page-level failure and is abstracted away here. -/
structure PageEnv where
  /-- Result of `self.can_fetch(url)`. -/
  robotsAllowed : Bool
  /-- Does `download_with_retry` return a response (vs `None`)? -/
  fetchOk : Bool
  /-- Does writing `pages/<page_name>.html` succeed? -/
  htmlWriteOk : Bool
  /-- Number of inline `<svg>` elements found in the parsed page. -/
  svgCount : Nat
  /-- Does writing an SVG file succeed (when a target folder exists)? -/
  svgWriteOk : Bool
  anchors : List String

/-- Combined mutable state of one `PoliteCrawler` run (the fields of
`self.visited_urls`, `self.url_queue`, `self.stats`, `self.results` that
the claims observe), plus two observer traces: `dequeuedTrace` records each
URL popped at line 322 and `enqueuedTrace` records each URL ever appended
to `self.url_queue` (line 313 and line 340), in order. -/
structure PCState where
  visited : List String
  queue : List String
  pages_crawled : Nat
  urls_found : Nat
  errors : List String
  /-- URLs of the page records appended to `self.results['pages']`. -/
  pages : List String
  dequeuedTrace : List String
  enqueuedTrace : List String
  deriving DecidableEq, Repr

/-- The inline-SVG loop (lines 279-285): for each `<svg>` element it reads
`self.folders["svg"]` and writes a file there.  A missing key raises
`KeyError`; a failed write raises `OSError`; neither is caught. -/
def saveInlineSvgs (folders : List (String × String)) (writeOk : Bool) :
    Nat → Except PyErr Unit
  | 0 => .ok ()
  | n + 1 =>
      match folders.lookup "svg" with
      | none => .error (.keyError "svg")
      | some _ =>
          if writeOk then saveInlineSvgs folders writeOk n
          else .error .osError

/-- The state changes one `process_page` call requests: appended error
records, the `urls_found` increment, the page record (if the page was
saved), and the returned `internal_links`. -/
structure PageEffect where
  newErrors : List String
  newUrlsFound : Nat
  pageRecord : Option String
  links : List String
  deriving DecidableEq, Repr

/-- `PoliteCrawler.process_page` (lines 208-303), in source order:
robots check (return `[]`); fetch-with-retry and parse inside `try`
(`None` or an exception there records an error and returns `[]`); then —
*outside* any handler — save the page HTML, save each inline SVG (via the
non-existent `"svg"` folder key), append the page record, and collect the
not-yet-visited internal links, bumping `urls_found` once per collected
link.  The visited set is read but never written here. -/
def PoliteCrawler.process_page (folders : List (String × String))
    (env : PageEnv) (visited : List String) (url : String) :
    Except PyErr PageEffect :=
  if ¬ env.robotsAllowed then
    .ok { newErrors := [], newUrlsFound := 0, pageRecord := none, links := [] }
  else if ¬ env.fetchOk then
    .ok { newErrors := [url], newUrlsFound := 0, pageRecord := none,
          links := [] }
  else
    match folders.lookup "html" with
    | none => .error (.keyError "html")
    | some _ =>
        if ¬ env.htmlWriteOk then .error .osError
        else
          match saveInlineSvgs folders env.svgWriteOk env.svgCount with
          | .error e => .error e
          | .ok _ =>
              let links := env.anchors.filter (fun l => decide (l ∉ visited))
              .ok { newErrors := [], newUrlsFound := links.length,
                    pageRecord := some url, links := links }

/-- The link-merge loop of `PoliteCrawler.crawl` (lines 337-340): for each
discovered link not yet visited, mark it visited and append it to the
queue (and to the enqueue trace).  Arguments: links, visited, queue,
enqueue trace. -/
def enqueueAll : List String → List String → List String → List String →
    List String × List String × List String
  | [], v, q, tr => (v, q, tr)
  | l :: rest, v, q, tr =>
      if l ∈ v then enqueueAll rest v q tr
      else enqueueAll rest (v ++ [l]) (q ++ [l]) (tr ++ [l])

/-- The `while` loop of `PoliteCrawler.crawl` (lines 316-340).  Returns the
final state and `some e` when an exception `e` escaped `process_page` and
aborted the run (the loop has no handler).

Every iteration increments `pages_crawled` by exactly one and the guard
requires `pages_crawled < max_pages`, so the loop runs at most
`max_pages - pages_crawled` times; `fuel` carries this bound as a
structural-recursion argument.  Whenever `pages_crawled + fuel = max_pages`
(as at the entry point `politeCrawl`, which passes `fuel = max_pages`), the
`fuel = 0` base case coincides with the `pages_crawled < max_pages` guard
failing, so the function computes exactly the Python loop. -/
def crawlLoop (folders : List (String × String)) (env : String → PageEnv)
    (max_pages : Nat) : Nat → PCState → PCState × Option PyErr
  | 0, s => (s, none)
  | fuel + 1, s =>
      match s.queue with
      | [] => (s, none)
      | u :: rest =>
          if s.pages_crawled < max_pages then
            let s1 : PCState :=
              { s with queue := rest,
                       dequeuedTrace := s.dequeuedTrace ++ [u] }
            match PoliteCrawler.process_page folders (env u) s1.visited u with
            | .error e => (s1, some e)
            | .ok eff =>
                let s2 : PCState :=
                  { s1 with errors := s1.errors ++ eff.newErrors,
                            urls_found := s1.urls_found + eff.newUrlsFound,
                            pages := s1.pages ++ eff.pageRecord.toList,
                            pages_crawled := s1.pages_crawled + 1 }
                let vqt :=
                  enqueueAll eff.links s2.visited s2.queue s2.enqueuedTrace
                crawlLoop folders env max_pages fuel
                  { s2 with visited := vqt.1, queue := vqt.2.1,
                            enqueuedTrace := vqt.2.2 }
          else (s, none)

/-- `PoliteCrawler.crawl` (lines 305-344): seed the queue and the visited
set with the start URL (lines 313-314), then run the loop. -/
def politeCrawl (env : String → PageEnv) (max_pages : Nat)
    (domain start_url : String) : PCState × Option PyErr :=
  crawlLoop (setup_folders domain) env max_pages max_pages
    { visited := [start_url], queue := [start_url], pages_crawled := 0,
      urls_found := 0, errors := [], pages := [],
      dequeuedTrace := [], enqueuedTrace := [start_url] }

/-! ## `IndustrialCrawler.crawl` (crawler_app.py lines 311-381)

Same abstraction style.  The differences from `PoliteCrawler` that matter:
the visited set starts empty and a URL is marked visited only when it is
*dequeued* (line 343, after the `continue` guard of lines 340-341), not
when it is enqueued (line 373 appends to the queue without touching the
visited set); the whole page-processing body runs inside `try`, so any
failure just bumps the error counter. -/

structure IndEnv where
  /-- Do `session.get` + `raise_for_status` succeed for this URL? -/
  fetchOk : Bool
  /-- Same-domain candidate link targets after the href-prefix filter and
  `urljoin` (lines 366-371), before the visited check of line 372. -/
  anchors : List String

structure IndState where
  visited : List String
  queue : List String
  pages : Nat
  errors : Nat
  /-- URLs whose extracted data was appended to `self.extracted_data`. -/
  extracted : List String
  /-- Trace of URLs popped at line 339. -/
  dequeuedTrace : List String
  /-- Trace of every URL ever appended to `self.url_queue` (line 321 seed
  and line 373). -/
  enqueuedTrace : List String
  deriving DecidableEq, Repr

/-- The link loop of lines 366-373: append each candidate not in the
(fixed) visited set to the queue; the visited set itself is not updated. -/
def indEnqueue : List String → List String → List String → List String →
    List String × List String
  | [], _, q, tr => (q, tr)
  | a :: rest, visited, q, tr =>
      if a ∈ visited then indEnqueue rest visited q tr
      else indEnqueue rest visited (q ++ [a]) (tr ++ [a])

/-- The `while` loop of `IndustrialCrawler.crawl` (lines 335-380). -/
def industrialLoop (env : String → IndEnv) (max_pages : Nat)
    (s : IndState) : IndState :=
  match hq : s.queue with
  | [] => s
  | u :: rest =>
      if h : s.pages < max_pages then
        let s1 : IndState :=
          { s with queue := rest, dequeuedTrace := s.dequeuedTrace ++ [u] }
        if u ∈ s1.visited then industrialLoop env max_pages s1
        else
          let s2 : IndState := { s1 with visited := s1.visited ++ [u] }
          if (env u).fetchOk then
            let s3 : IndState :=
              { s2 with pages := s2.pages + 1,
                        extracted := s2.extracted ++ [u] }
            let qt := indEnqueue (env u).anchors s3.visited s3.queue
                        s3.enqueuedTrace
            industrialLoop env max_pages
              { s3 with queue := qt.1, enqueuedTrace := qt.2 }
          else industrialLoop env max_pages { s2 with errors := s2.errors + 1 }
      else s
  termination_by (max_pages - s.pages, s.queue.length)
  decreasing_by
    all_goals simp only [hq, List.length_cons]
    all_goals first
      | (apply Prod.Lex.right; omega)
      | (apply Prod.Lex.left; omega)

/-- `IndustrialCrawler.crawl` entry: `visited_urls = set()`,
`url_queue = deque([start_url])` (lines 320-321). -/
def industrialCrawl (env : String → IndEnv) (max_pages : Nat)
    (start_url : String) : IndState :=
  industrialLoop env max_pages
    { visited := [], queue := [start_url], pages := 0, errors := 0,
      extracted := [], dequeuedTrace := [], enqueuedTrace := [start_url] }

/-! ## Concrete environments and states used by witnesses and
counterexamples -/

/-- Every page is allowed, fetches, saves, has no inline SVG and links to
three same-domain URLs. -/
def envAllOk : String → PageEnv := fun _ =>
  { robotsAllowed := true, fetchOk := true, htmlWriteOk := true,
    svgCount := 0, svgWriteOk := true,
    anchors := ["https://d/a", "https://d/b", "https://d/c"] }

/-- robots.txt disallows every URL; nothing is ever fetched. -/
def envAllDisallowed : String → PageEnv := fun _ =>
  { robotsAllowed := false, fetchOk := true, htmlWriteOk := true,
    svgCount := 0, svgWriteOk := true, anchors := [] }

/-- Pages fetch fine but contain one inline `<svg>` element. -/
def envSvgPage : String → PageEnv := fun _ =>
  { robotsAllowed := true, fetchOk := true, htmlWriteOk := true,
    svgCount := 1, svgWriteOk := true, anchors := [] }

/-- Pages fetch fine but writing the saved HTML file fails on disk. -/
def envHtmlWriteFails : String → PageEnv := fun _ =>
  { robotsAllowed := true, fetchOk := true, htmlWriteOk := false,
    svgCount := 0, svgWriteOk := true, anchors := [] }

/-- Industrial environment: the seed page lists the same link twice. -/
def envDupLinks : String → IndEnv := fun u =>
  if u = "https://t/s" then
    { fetchOk := true, anchors := ["https://t/x", "https://t/x"] }
  else { fetchOk := true, anchors := [] }

/-- A stats record with an unset start time and twelve errors. -/
def statsW : CrawlerStats :=
  { pages_crawled := 2, assets_downloaded := 1, total_bytes := 1572864,
    start_time := none, end_time := some 5,
    errors := ["e1", "e2", "e3", "e4", "e5", "e6", "e7", "e8", "e9", "e10",
               "e11", "e12"],
    urls_found := 4 }

/-- An asset-archive state in which `imgs/a.png` is already on disk. -/
def assetStateW : AssetState :=
  { files := ["imgs/a.png"], assets_downloaded := 3, total_bytes := 700,
    errors := ["old"], requests := 2 }

/-! # Theorems -/

/-! ## Invariants of the `PoliteCrawler` crawl loop -/

/-- The link-merge loop appends one common block `δ` of fresh, pairwise
distinct URLs to the visited set, the queue and the enqueue trace. -/
theorem enqueueAll_spec (links v q tr : List String) :
    ∃ δ : List String,
      enqueueAll links v q tr = (v ++ δ, q ++ δ, tr ++ δ) ∧
      (∀ x ∈ δ, x ∉ v) ∧ δ.Nodup := by
  induction links generalizing v q tr with
  | nil => exact ⟨[], by simp [enqueueAll], by simp, List.nodup_nil⟩
  | cons l rest ih =>
      by_cases hl : l ∈ v
      · obtain ⟨δ, h1, h2, h3⟩ := ih v q tr
        exact ⟨δ, by simp [enqueueAll, hl, h1], h2, h3⟩
      · obtain ⟨δ, h1, h2, h3⟩ := ih (v ++ [l]) (q ++ [l]) (tr ++ [l])
        refine ⟨l :: δ, ?_, ?_, ?_⟩
        · simp only [enqueueAll, if_neg hl, h1]
          simp
        · intro x hx
          rcases List.mem_cons.mp hx with rfl | hx
          · exact hl
          · have := h2 x hx
            simp only [List.mem_append] at this
            exact fun hv => this (Or.inl hv)
        · refine List.nodup_cons.mpr ⟨fun hlδ => ?_, h3⟩
          have := h2 l hlδ
          simp at this

/-- Main invariant of the `while` loop of `PoliteCrawler.crawl`, provided
the fuel equals the remaining page budget (as at the entry point): the
final counter never exceeds `max_pages`; a normally completed run that
still has a queue stopped because the budget was exhausted; on normal
completion the counter equals the number of dequeued URLs; the enqueue
trace never repeats a URL; and the dequeue trace followed by the remaining
queue is exactly the enqueue trace. -/
theorem crawlLoop_inv (folders : List (String × String))
    (env : String → PageEnv) (max_pages : Nat) :
    ∀ (fuel : Nat) (s : PCState),
      s.pages_crawled + fuel = max_pages →
      s.pages_crawled = s.dequeuedTrace.length →
      s.enqueuedTrace.Nodup →
      (∀ x ∈ s.enqueuedTrace, x ∈ s.visited) →
      s.dequeuedTrace ++ s.queue = s.enqueuedTrace →
      (crawlLoop folders env max_pages fuel s).1.pages_crawled ≤ max_pages ∧
      ((crawlLoop folders env max_pages fuel s).2 = none →
        (crawlLoop folders env max_pages fuel s).1.queue ≠ [] →
        (crawlLoop folders env max_pages fuel s).1.pages_crawled = max_pages) ∧
      ((crawlLoop folders env max_pages fuel s).2 = none →
        (crawlLoop folders env max_pages fuel s).1.pages_crawled =
          (crawlLoop folders env max_pages fuel s).1.dequeuedTrace.length) ∧
      (crawlLoop folders env max_pages fuel s).1.enqueuedTrace.Nodup ∧
      (crawlLoop folders env max_pages fuel s).1.dequeuedTrace ++
          (crawlLoop folders env max_pages fuel s).1.queue =
        (crawlLoop folders env max_pages fuel s).1.enqueuedTrace := by
  intro fuel
  induction fuel with
  | zero =>
      intro s h1 h2 h3 h4 h5
      simp only [crawlLoop]
      exact ⟨by omega, fun _ _ => by omega, fun _ => h2, h3, h5⟩
  | succ n ih =>
      intro s h1 h2 h3 h4 h5
      match hq : s.queue with
      | [] =>
          simp only [crawlLoop, hq]
          exact ⟨by omega, fun _ h => absurd rfl h, fun _ => h2, h3,
                 by rw [← hq]; exact h5⟩
      | u :: rest =>
          have hlt : s.pages_crawled < max_pages := by omega
          simp only [crawlLoop, hq, if_pos hlt]
          cases hp : PoliteCrawler.process_page folders (env u)
              ({ s with queue := rest,
                        dequeuedTrace := s.dequeuedTrace ++ [u] } :
                PCState).visited u with
          | error e =>
              simp only
              refine ⟨by simpa using hlt.le, ?_, ?_, h3, ?_⟩
              · intro hcontra; simp at hcontra
              · intro hcontra; simp at hcontra
              · show (s.dequeuedTrace ++ [u]) ++ rest = s.enqueuedTrace
                rw [List.append_assoc, List.singleton_append, ← hq]
                exact h5
          | ok eff =>
              simp only
              obtain ⟨δ, he, hfresh, hδnd⟩ :=
                enqueueAll_spec eff.links s.visited rest s.enqueuedTrace
              simp only [he]
              refine ih _ ?_ ?_ ?_ ?_ ?_
              · simp; omega
              · simp [h2]
              · simp only []
                refine List.Nodup.append h3 hδnd ?_
                intro x hxe hxδ
                exact hfresh x hxδ (h4 x hxe)
              · intro x hx
                simp only [List.mem_append] at hx ⊢
                rcases hx with hx | hx
                · exact Or.inl (h4 x hx)
                · exact Or.inr hx
              · show ((s.dequeuedTrace ++ [u]) ++ (rest ++ δ)) =
                  s.enqueuedTrace ++ δ
                rw [← List.append_assoc, List.append_assoc s.dequeuedTrace,
                    List.singleton_append, ← hq, h5]

/-- C1: for every crawl run of `PoliteCrawler`, the `pages_crawled` counter
never exceeds the configured `max_pages`, and if the run completes while
the URL queue is still non-empty then the counter equals `max_pages` (the
page budget, not frontier exhaustion, ended the run). -/
theorem politeCrawl_page_budget (env : String → PageEnv) (max_pages : Nat)
    (domain start_url : String) :
    (politeCrawl env max_pages domain start_url).1.pages_crawled ≤
      max_pages ∧
    ((politeCrawl env max_pages domain start_url).2 = none →
      (politeCrawl env max_pages domain start_url).1.queue ≠ [] →
      (politeCrawl env max_pages domain start_url).1.pages_crawled =
        max_pages) := by
  have h := crawlLoop_inv (setup_folders domain) env max_pages max_pages
    { visited := [start_url], queue := [start_url], pages_crawled := 0,
      urls_found := 0, errors := [], pages := [],
      dequeuedTrace := [], enqueuedTrace := [start_url] }
    (by simp) (by simp) (by simp) (by simp) (by simp)
  exact ⟨h.1, h.2.1⟩

/-- C1 witness: a concrete completed run with budget 2 whose queue is still
non-empty ends with `pages_crawled = 2`. -/
theorem politeCrawl_page_budget_witness :
    (politeCrawl envAllOk 2 "d" "s").2 = none ∧
    (politeCrawl envAllOk 2 "d" "s").1.queue ≠ [] ∧
    (politeCrawl envAllOk 2 "d" "s").1.pages_crawled = 2 :=
  ⟨by decide, by decide,
   (politeCrawl_page_budget envAllOk 2 "d" "s").2 (by decide) (by decide)⟩

/-! ## Dedup behaviour of the two crawl loops (C2) -/

/-- In `IndustrialCrawler.crawl`, the dequeue-time visited check guarantees
that no URL is extracted (processed) more than once, even though the queue
may hold duplicates. -/
theorem industrialLoop_extracted_nodup (env : String → IndEnv)
    (max_pages : Nat) :
    ∀ s : IndState, s.extracted.Nodup →
      (∀ x ∈ s.extracted, x ∈ s.visited) →
      (industrialLoop env max_pages s).extracted.Nodup ∧
      ∀ x ∈ (industrialLoop env max_pages s).extracted,
        x ∈ (industrialLoop env max_pages s).visited := by
  intro s
  induction s using industrialLoop.induct env max_pages with
  | case1 x hq =>
      intro hnd hsub
      have hstep : industrialLoop env max_pages x = x := by
        rw [industrialLoop]
        split
        · rfl
        · rename_i u1 rest1 heq
          rw [hq] at heq
          cases heq
      rw [hstep]
      exact ⟨hnd, hsub⟩
  | case2 x u rest hq hlt s1 hmem ih =>
      intro hnd hsub
      have hmem2 : u ∈ x.visited := hmem
      have hstep : industrialLoop env max_pages x =
          industrialLoop env max_pages s1 := by
        rw [industrialLoop]
        split
        · rename_i heq
          rw [hq] at heq
          cases heq
        · rename_i u1 rest1 heq
          rw [hq] at heq
          injection heq with h1 h2
          subst h1; subst h2
          rw [dif_pos hlt, if_pos hmem2]
      rw [hstep]
      exact ih hnd hsub
  | case3 x u rest hq hlt s1 hmem s2 hfetch s3 qt ih =>
      intro hnd hsub
      have hmem2 : u ∉ x.visited := hmem
      have hfetch2 : (env u).fetchOk = true := hfetch
      have hstep : industrialLoop env max_pages x =
          industrialLoop env max_pages
            { visited := s3.visited, queue := qt.1, pages := s3.pages,
              errors := s3.errors, extracted := s3.extracted,
              dequeuedTrace := s3.dequeuedTrace, enqueuedTrace := qt.2 } := by
        rw [industrialLoop]
        split
        · rename_i heq
          rw [hq] at heq
          cases heq
        · rename_i u1 rest1 heq
          rw [hq] at heq
          injection heq with h1 h2
          subst h1; subst h2
          rw [dif_pos hlt, if_neg hmem2, if_pos hfetch2]
      rw [hstep]
      refine ih ?_ ?_
      · refine List.Nodup.append hnd (List.nodup_singleton u) ?_
        intro y hy hyu
        rcases List.mem_singleton.mp hyu with rfl
        exact hmem2 (hsub y hy)
      · intro y hy
        show y ∈ x.visited ++ [u]
        simp only [List.mem_append, List.mem_singleton] at hy ⊢
        rcases hy with hy | rfl
        · exact Or.inl (hsub y hy)
        · exact Or.inr rfl
  | case4 x u rest hq hlt s1 hmem s2 hfetch ih =>
      intro hnd hsub
      have hmem2 : u ∉ x.visited := hmem
      have hfetch2 : ¬ (env u).fetchOk = true := hfetch
      have hstep : industrialLoop env max_pages x =
          industrialLoop env max_pages
            { visited := s2.visited, queue := s2.queue, pages := s2.pages,
              errors := s2.errors + 1, extracted := s2.extracted,
              dequeuedTrace := s2.dequeuedTrace,
              enqueuedTrace := s2.enqueuedTrace } := by
        rw [industrialLoop]
        split
        · rename_i heq
          rw [hq] at heq
          cases heq
        · rename_i u1 rest1 heq
          rw [hq] at heq
          injection heq with h1 h2
          subst h1; subst h2
          rw [dif_pos hlt, if_neg hmem2, if_neg hfetch2]
      rw [hstep]
      refine ih hnd ?_
      intro y hy
      show y ∈ x.visited ++ [u]
      exact List.mem_append.mpr (Or.inl (hsub y hy))
  | case5 x u rest hq hlt =>
      intro hnd hsub
      have hstep : industrialLoop env max_pages x = x := by
        rw [industrialLoop]
        split
        · rfl
        · rename_i u1 rest1 heq
          rw [hq] at heq
          injection heq with h1 h2
          subst h1; subst h2
          rw [dif_neg hlt]
      rw [hstep]
      exact ⟨hnd, hsub⟩

/-- C2 counterexample: in `IndustrialCrawler.crawl` a URL is *not* marked
visited when it is enqueued.  With a seed page that lists the same link
twice, that link is appended to the queue twice (it occupies two queue
positions at once) and is dequeued twice — refuting both the
mark-at-enqueue mechanism and the unique-dequeue-sequence claim for this
crawler.  (It is still only extracted once, by the dequeue-time check.) -/
theorem industrialCrawl_enqueues_twice :
    (industrialCrawl envDupLinks 10 "https://t/s").enqueuedTrace =
      ["https://t/s", "https://t/x", "https://t/x"] ∧
    ¬ (industrialCrawl envDupLinks 10 "https://t/s").enqueuedTrace.Nodup ∧
    (industrialCrawl envDupLinks 10 "https://t/s").dequeuedTrace =
      ["https://t/s", "https://t/x", "https://t/x"] ∧
    ¬ (industrialCrawl envDupLinks 10 "https://t/s").dequeuedTrace.Nodup := by
  have h : industrialCrawl envDupLinks 10 "https://t/s" =
      { visited := ["https://t/s", "https://t/x"], queue := [],
        pages := 2, errors := 0,
        extracted := ["https://t/s", "https://t/x"],
        dequeuedTrace := ["https://t/s", "https://t/x", "https://t/x"],
        enqueuedTrace := ["https://t/s", "https://t/x", "https://t/x"] } := by
    simp [industrialCrawl, industrialLoop, indEnqueue, envDupLinks]
  rw [h]
  refine ⟨rfl, ?_, rfl, ?_⟩ <;> simp

/-- C2 (amended): in `PoliteCrawler` every URL (seed included) is marked
visited at the moment it is enqueued, so no URL is ever enqueued twice in
one run — hence no URL occupies two queue positions and the dequeue
sequence never repeats a URL.  In `IndustrialCrawler` URLs are marked
visited only at dequeue time and the same URL can be enqueued and dequeued
twice, but the dequeue-time visited check still ensures no URL is processed
(extracted) more than once. -/
theorem crawl_dedup (env : String → PageEnv) (ienv : String → IndEnv)
    (max_pages imax : Nat) (domain start_url istart : String) :
    (politeCrawl env max_pages domain start_url).1.enqueuedTrace.Nodup ∧
    (politeCrawl env max_pages domain start_url).1.dequeuedTrace.Nodup ∧
    (industrialCrawl ienv imax istart).extracted.Nodup := by
  have h := crawlLoop_inv (setup_folders domain) env max_pages max_pages
    { visited := [start_url], queue := [start_url], pages_crawled := 0,
      urls_found := 0, errors := [], pages := [],
      dequeuedTrace := [], enqueuedTrace := [start_url] }
    (by simp) (by simp) (by simp) (by simp) (by simp)
  have hi := industrialLoop_extracted_nodup ienv imax
    { visited := [], queue := [istart], pages := 0, errors := 0,
      extracted := [], dequeuedTrace := [], enqueuedTrace := [istart] }
    (by simp) (by simp)
  refine ⟨h.2.2.2.1, ?_, hi.1⟩
  have hconcat := h.2.2.2.2
  have hnd := h.2.2.2.1
  rw [← hconcat] at hnd
  exact hnd.of_append_left

/-! ## Page-budget accounting (C6) -/

/-- C6 counterexample: a run whose only URL is robots-disallowed fetches
and processes nothing (no page record, no error record), yet ends with
`pages_crawled = 1` — the disallowed URL consumed one unit of the page
budget, because line 324 increments the counter unconditionally after
every dequeue. -/
theorem politeCrawl_disallowed_consumes_budget :
    (politeCrawl envAllDisallowed 5 "d" "s").1.pages_crawled = 1 ∧
    (politeCrawl envAllDisallowed 5 "d" "s").1.pages = [] ∧
    (politeCrawl envAllDisallowed 5 "d" "s").1.errors = [] ∧
    (politeCrawl envAllDisallowed 5 "d" "s").2 = none := by
  decide

/-- C6 (amended): `pages_crawled` is incremented exactly once for every
dequeued URL, whether or not the URL was robots-disallowed (skipped
silently, no fetch, no error record, no page record) or its fetch failed
after all retries — so disallowed and failed URLs do consume the page
budget. -/
theorem politeCrawl_counts_every_dequeue :
    (∀ (folders : List (String × String)) (penv : PageEnv)
        (visited : List String) (url : String),
      penv.robotsAllowed = false →
      PoliteCrawler.process_page folders penv visited url =
        .ok { newErrors := [], newUrlsFound := 0, pageRecord := none,
              links := [] }) ∧
    (∀ (env : String → PageEnv) (max_pages : Nat) (domain start_url : String),
      (politeCrawl env max_pages domain start_url).2 = none →
      (politeCrawl env max_pages domain start_url).1.pages_crawled =
        (politeCrawl env max_pages domain start_url).1.dequeuedTrace.length) := by
  constructor
  · intro folders penv visited url h
    simp [PoliteCrawler.process_page, h]
  · intro env max_pages domain start_url hnone
    exact (crawlLoop_inv (setup_folders domain) env max_pages max_pages
      { visited := [start_url], queue := [start_url], pages_crawled := 0,
        urls_found := 0, errors := [], pages := [],
        dequeuedTrace := [], enqueuedTrace := [start_url] }
      (by simp) (by simp) (by simp) (by simp) (by simp)).2.2.1 hnone

/-- C6 witness: the amended statement evaluated at a concrete disallowed
page and at a concrete completed two-page run. -/
theorem politeCrawl_counts_every_dequeue_witness :
    PoliteCrawler.process_page (setup_folders "d")
        { robotsAllowed := false, fetchOk := true, htmlWriteOk := true,
          svgCount := 0, svgWriteOk := true, anchors := ["https://d/a"] }
        ["s"] "u" =
      .ok { newErrors := [], newUrlsFound := 0, pageRecord := none,
            links := [] } ∧
    (politeCrawl envAllOk 2 "d" "s").1.pages_crawled =
      (politeCrawl envAllOk 2 "d" "s").1.dequeuedTrace.length :=
  ⟨politeCrawl_counts_every_dequeue.1 _ _ _ _ rfl,
   politeCrawl_counts_every_dequeue.2 envAllOk 2 "d" "s" (by decide)⟩

/-! ## Page-level errors abort the run (C5) -/

/-- C5: the claim fails on the code.  The folder dictionary built by
`setup_folders` has no key `"svg"` (the key is `"svgs"`), so the inline-SVG
save of line 281 raises `KeyError` on any page containing an inline
`<svg>`; and the page-HTML save of lines 234-236 sits outside the `try` of
lines 216-226, so a disk failure there raises too.  Neither exception is
caught in `crawl`, so the run aborts — with no error recorded — instead of
degrading the page and continuing. -/
theorem politeCrawl_page_error_aborts_run :
    (setup_folders "d").lookup "svg" = none ∧
    (politeCrawl envSvgPage 10 "d" "s").2 = some (PyErr.keyError "svg") ∧
    (politeCrawl envSvgPage 10 "d" "s").1.errors = [] ∧
    (politeCrawl envHtmlWriteFails 10 "d" "s").2 = some PyErr.osError := by
  decide

/-! ## robots.txt failure handling (C3) -/

/-- C3: the claim fails on the code.  When the robots.txt fetch raises a
connection error or a body-decode error, or returns HTTP 401/403 or a 5xx
status, every subsequent `can_fetch` returns `false` (the crawler fails
*closed* and fetches nothing): the stdlib parser state was never stamped as
read (or `disallow_all` was set), `RobotFileParser.can_fetch` returns
`False` instead of raising, and the fail-open `except: return True` in
`PoliteCrawler.can_fetch` therefore never fires.  Only a 4xx other than
401/403 (e.g. the common 404) produces the fail-open behaviour the spec
describes. -/
theorem can_fetch_fails_closed (url : String) :
    PoliteCrawler.can_fetch
      (check_robots_txt RobotFileParser.init .connError) url = false ∧
    PoliteCrawler.can_fetch
      (check_robots_txt RobotFileParser.init .decodeError) url = false ∧
    PoliteCrawler.can_fetch
      (check_robots_txt RobotFileParser.init (.httpError 503)) url = false ∧
    PoliteCrawler.can_fetch
      (check_robots_txt RobotFileParser.init (.httpError 401)) url = false ∧
    PoliteCrawler.can_fetch
      (check_robots_txt RobotFileParser.init (.httpError 404)) url = true := by
  refine ⟨rfl, rfl, ?_, ?_, ?_⟩ <;>
    simp [PoliteCrawler.can_fetch, RobotFileParser.can_fetch,
          check_robots_txt, RobotFileParser.read, RobotFileParser.init]

/-! ## Fetch retry policy (C4) -/

/-- A non-failing attempt is a response whose status is outside 400-599
(`raise_for_status` does not raise on it). -/
theorem fails_false_status {o : AttemptOutcome} (h : o.fails = false) :
    ¬ (400 ≤ o.statusOf ∧ o.statusOf < 600) := by
  cases o with
  | transportError => simp [AttemptOutcome.fails] at h
  | response s =>
      simpa [AttemptOutcome.fails, AttemptOutcome.statusOf] using h

/-- C4 counterexample: requests' `raise_for_status` raises only for
status codes 400-599, so a non-2xx status such as 304 is *not* a failed
attempt: `download_with_retry` returns it as a success on the first
attempt, with no retry and no error record — refuting "any non-2xx status
counts as a failed attempt". -/
theorem download_with_retry_non2xx_success :
    (download_with_retry (fun _ => .response 304) "u").response = some 304 ∧
    (download_with_retry (fun _ => .response 304) "u").errors = [] ∧
    (download_with_retry (fun _ => .response 304) "u").gets = 1 ∧
    ¬ (200 ≤ 304 ∧ 304 < 300) := by
  decide

/-- C4 (amended): `download_with_retry` issues at most `MAX_RETRIES = 3`
GET attempts, each with timeout `TIMEOUT = 10`, with one fixed one-second
sleep between consecutive attempts; an attempt fails iff it raises a
transport error or returns a status in 400-599 (not: any non-2xx status);
it returns `None` iff all three attempts fail, in which case exactly one
`{url, error}` record is appended; if any attempt succeeds the returned
response's status is outside 400-599 and no error record is produced; no
exception ever propagates (the function is total). -/
theorem download_with_retry_policy (env : Nat → AttemptOutcome)
    (url : String) :
    1 ≤ (download_with_retry env url).gets ∧
    (download_with_retry env url).gets ≤ MAX_RETRIES ∧
    (download_with_retry env url).timeouts =
      List.replicate (download_with_retry env url).gets TIMEOUT ∧
    (download_with_retry env url).sleeps + 1 =
      (download_with_retry env url).gets ∧
    ((download_with_retry env url).response = none ↔
      ((env 0).fails = true ∧ (env 1).fails = true ∧ (env 2).fails = true)) ∧
    ((download_with_retry env url).response = none →
      (download_with_retry env url).errors = [url]) ∧
    (∀ st, (download_with_retry env url).response = some st →
      (download_with_retry env url).errors = [] ∧
      ¬ (400 ≤ st ∧ st < 600)) := by
  cases hf0 : (env 0).fails <;> cases hf1 : (env 1).fails <;>
    cases hf2 : (env 2).fails <;>
    simp [download_with_retry, runAttempts, hf0, hf1, hf2, MAX_RETRIES,
      TIMEOUT, List.replicate]
  all_goals first
    | (intro h4
       have h5 := fails_false_status hf0
       omega)
    | (intro h4
       have h5 := fails_false_status hf1
       omega)
    | (intro h4
       have h5 := fails_false_status hf2
       omega)

/-- C4 witness: the amended statement evaluated at an environment whose
three attempts all raise transport errors. -/
theorem download_with_retry_policy_witness :
    (download_with_retry (fun _ => .transportError) "u").response = none ∧
    (download_with_retry (fun _ => .transportError) "u").errors = ["u"] ∧
    (download_with_retry (fun _ => .transportError) "u").gets = 3 :=
  ⟨by decide,
   (download_with_retry_policy (fun _ => .transportError) "u").2.2.2.2.2.1
     (by decide),
   by decide⟩

/-! ## Stats summary (C7) -/

/-- C7: `CrawlerStats.to_dict` reports `duration_seconds = 0` whenever the
start or the end time is unset; reports `total_mb` as `total_bytes`
divided by 1,048,576 rounded to two decimals (so 1,572,864 bytes summarize
to 1.5); stores at most the first 10 error entries while `errors_count` is
the total number of recorded errors. -/
theorem to_dict_spec (s : CrawlerStats) :
    ((s.start_time = none ∨ s.end_time = none) →
      (CrawlerStats.to_dict s).duration_seconds = 0) ∧
    (CrawlerStats.to_dict s).total_mb =
      pyRound2 ((s.total_bytes : ℚ) / 1048576) ∧
    (s.total_bytes = 1572864 → (CrawlerStats.to_dict s).total_mb = 3 / 2) ∧
    (CrawlerStats.to_dict s).errors = s.errors.take 10 ∧
    (CrawlerStats.to_dict s).errors_count = s.errors.length := by
  refine ⟨?_, ?_, ?_, rfl, rfl⟩
  · intro h
    have hz : pyRound2 0 = 0 := by
      norm_num [pyRound2, roundHalfEvenInt]
    rcases h with h | h
    · cases hs : s.end_time <;>
        simp [CrawlerStats.to_dict, h, hs, hz]
    · cases hs : s.start_time <;>
        simp [CrawlerStats.to_dict, h, hs, hz]
  · norm_num [CrawlerStats.to_dict]
  · intro h
    have : ((s.total_bytes : ℚ) / (1024 * 1024)) = 3 / 2 := by
      rw [h]; norm_num
    simp only [CrawlerStats.to_dict, this]
    norm_num [pyRound2, roundHalfEvenInt]

/-- C7 witness: the statement evaluated on a concrete stats record with an
unset start time, 1,572,864 total bytes, and twelve recorded errors. -/
theorem to_dict_spec_witness :
    (CrawlerStats.to_dict statsW).duration_seconds = 0 ∧
    (CrawlerStats.to_dict statsW).total_mb = 3 / 2 ∧
    (CrawlerStats.to_dict statsW).errors =
      ["e1", "e2", "e3", "e4", "e5", "e6", "e7", "e8", "e9", "e10"] ∧
    (CrawlerStats.to_dict statsW).errors_count = 12 :=
  ⟨(to_dict_spec statsW).1 (Or.inl rfl),
   (to_dict_spec statsW).2.2.1 rfl,
   by decide,
   by decide⟩

/-! ## Security header findings (C8) -/

/-- C8: for any response whose headers lack `Strict-Transport-Security`,
`Content-Security-Policy` and `X-Content-Type-Options`,
`check_security_headers` appends exactly one high-severity finding (and it
is the missing-HSTS one), exactly one medium-severity missing-CSP finding
and exactly one medium-severity MIME-sniffing finding, each with a
non-empty recommendation string. -/
theorem check_security_headers_spec (headers : List String) (url : String) :
    "Strict-Transport-Security" ∉ headers →
    "Content-Security-Policy" ∉ headers →
    "X-Content-Type-Options" ∉ headers →
    (check_security_headers headers url).countP
        (fun pr => decide (pr.1 = Severity.high)) = 1 ∧
    (check_security_headers headers url).countP
        (fun pr => decide (pr.1 = Severity.high ∧
          pr.2.ftype = "Missing HSTS Header" ∧
          pr.2.recommendation ≠ "")) = 1 ∧
    (check_security_headers headers url).countP
        (fun pr => decide (pr.1 = Severity.medium ∧
          pr.2.ftype = "Missing Content Security Policy" ∧
          pr.2.recommendation ≠ "")) = 1 ∧
    (check_security_headers headers url).countP
        (fun pr => decide (pr.1 = Severity.medium ∧
          pr.2.ftype = "Missing X-Content-Type-Options" ∧
          pr.2.recommendation ≠ "")) = 1 := by
  intro h1 h2 h3
  by_cases hxfo : "X-Frame-Options" ∈ headers <;>
    by_cases hxxp : "X-XSS-Protection" ∈ headers <;>
    by_cases href : "Referrer-Policy" ∈ headers <;>
    by_cases hpp : "Permissions-Policy" ∈ headers <;>
    by_cases hfp : "Feature-Policy" ∈ headers <;>
    simp [check_security_headers, h1, h2, h3, hxfo, hxxp, href, hpp, hfp,
      List.countP_append, List.countP_cons]

/-- C8 witness: the statement evaluated at a header set containing only
`Server`. -/
theorem check_security_headers_spec_witness :
    (check_security_headers ["Server"] "https://t/").countP
        (fun pr => decide (pr.1 = Severity.high)) = 1 ∧
    (check_security_headers ["Server"] "https://t/").countP
        (fun pr => decide (pr.1 = Severity.medium ∧
          pr.2.ftype = "Missing Content Security Policy" ∧
          pr.2.recommendation ≠ "")) = 1 :=
  ⟨(check_security_headers_spec ["Server"] "https://t/" (by decide)
      (by decide) (by decide)).1,
   (check_security_headers_spec ["Server"] "https://t/" (by decide)
      (by decide) (by decide)).2.2.1⟩

/-! ## Asset download (C9, C10) -/

/-- C9: `download_asset` is idempotent with respect to the filesystem: when
the derived target filename (basename of the URL path, query suffix
stripped) already exists in the destination folder, it returns that
filename and changes nothing — no network request, no statistics change,
no error record. -/
theorem download_asset_idempotent (env : AssetEnv) (s : AssetState)
    (url folder : String)
    (hbase : os_path_basename (urlparse_path url) ≠ "")
    (hexists :
      os_path_join folder
        (String.mk ((splitOnChar '?'
          (os_path_basename (urlparse_path url)).data).headD
          (os_path_basename (urlparse_path url)).data)) ∈ s.files) :
    download_asset env s url folder =
      (some (String.mk ((splitOnChar '?'
          (os_path_basename (urlparse_path url)).data).headD
          (os_path_basename (urlparse_path url)).data)), s) := by
  simp only [download_asset, if_neg hbase, if_pos hexists]

/-- C9 witness: re-running over `https://h/x/a.png?v=1` when `imgs/a.png`
is already on disk returns the filename and leaves the state untouched. -/
theorem download_asset_idempotent_witness :
    os_path_basename (urlparse_path "https://h/x/a.png?v=1") ≠ "" ∧
    download_asset { fetch := some [5], writeOk := true } assetStateW
        "https://h/x/a.png?v=1" "imgs" = (some "a.png", assetStateW) := by
  refine ⟨by decide, ?_⟩
  have h := download_asset_idempotent
    { fetch := some [5], writeOk := true } assetStateW
    "https://h/x/a.png?v=1" "imgs" (by decide) (by decide)
  rw [h]
  decide

/-- C10: for an asset URL whose path has an empty basename (for example a
URL ending in `/`), `download_asset` returns `None` before any network
request, appends no error record and changes no statistic. -/
theorem download_asset_empty_basename (env : AssetEnv) (s : AssetState)
    (url folder : String)
    (hbase : os_path_basename (urlparse_path url) = "") :
    download_asset env s url folder = (none, s) := by
  simp only [download_asset, if_pos hbase]

/-- C10 witness: the statement evaluated at `https://h/dir/`. -/
theorem download_asset_empty_basename_witness :
    os_path_basename (urlparse_path "https://h/dir/") = "" ∧
    download_asset { fetch := some [5], writeOk := true } assetStateW
        "https://h/dir/" "imgs" = (none, assetStateW) :=
  ⟨by decide,
   download_asset_empty_basename { fetch := some [5], writeOk := true }
     assetStateW "https://h/dir/" "imgs" (by decide)⟩

end DataCrawler
